import Mathlib

/-!
# Verification of the money / account-balance module (`proj_1.py`)

Shallow embedding of the Python source into Lean 4.

Modelling conventions:
* `Decimal` amounts quantized to two fractional digits are stored as an
  integer number of cents (`cents : Int`); the abstract `amount` attribute is
  `cents / 100 : ℚ`.  Python's
  `Decimal(x).quantize(Decimal('0.01'), rounding=ROUND_HALF_UP)` is modelled
  by `quant2 : ℚ → ℤ` (round to the nearest integer number of cents, ties
  away from zero, which is what `ROUND_HALF_UP` does).
* `Decimal` division inside `__truediv__` runs at 28 significant digits
  before the two-place quantization of the constructor; we model it as exact
  rational division followed by quantization (the two agree unless the exact
  quotient lies within about `10^-26` of a half-cent boundary, impossible for
  the integer-scaled operands arising here).
* Python exceptions are modelled with `Except PyError`; each constructor of
  `PyError` names the Python exception class raised by the source.
* Python `dict` (insertion-ordered) is modelled by an association list with
  update-in-place and append-if-new semantics.
* `str.upper()` is modelled by `pyUpper`, mapping `Char.toUpper` over the
  characters; this agrees with Python on the ASCII currency codes the spec
  allows (3-4 letter codes).
* Wall-clock timestamps (`datetime.datetime.now()`) are dropped: no verified
  property mentions them, and the spec treats the clock as injectable.
* The cyclic `balance_after` reference a transaction record keeps to the
  snapshot that contains it is flattened to that snapshot's amount in cents
  (field `balance_after_cents`).
-/

set_option autoImplicit false

namespace Proj1

/-- Python exceptions raised by the source, by class. `typeError` is the
`TypeError` raised when a callable receives a wrong number of arguments;
`insufficientFunds` and `insufficientShares` are the two bare `ValueError`s
of the balance code; `incompatibleCurrency` is the custom
`IncompatibleCurrencyError`. -/
inductive PyError where
  | incompatibleCurrency
  | typeError
  | zeroDivision
  | insufficientFunds
  | insufficientShares
  | keyError
  | indexError
  deriving DecidableEq

/-- Round a rational to the nearest integer with ties away from zero:
Python `Decimal`'s `ROUND_HALF_UP` rounding mode. -/
def roundHalfUp (r : ℚ) : ℤ :=
  if 0 ≤ r then ⌊r + 1/2⌋ else -⌊-r + 1/2⌋

/-- `Decimal(q).quantize(Decimal('0.01'), rounding=ROUND_HALF_UP)`, returning
the result as a number of cents. -/
def quant2 (q : ℚ) : ℤ :=
  roundHalfUp (q * 100)

/-- Python `str.upper()` (on the ASCII strings used as currency codes). -/
def pyUpper (s : String) : String :=
  ⟨s.data.map Char.toUpper⟩

/-- `AdvancedMoney`: a currency-tagged monetary value.  `cents` is the
quantized `amount` attribute scaled by 100. -/
structure AdvancedMoney where
  cents : ℤ
  currency : String
  deriving DecidableEq

namespace AdvancedMoney

/-- The `amount` attribute (a `Decimal` with two fractional digits). -/
def amount (m : AdvancedMoney) : ℚ := (m.cents : ℚ) / 100

/-- `AdvancedMoney.__init__`: quantize the exact decimal input to two places
half-up and uppercase the currency code. -/
def ofRat (q : ℚ) (cur : String) : AdvancedMoney :=
  { cents := quant2 q, currency := pyUpper cur }

/-- `AdvancedMoney._check_currency` (the `isinstance` branch raising
`TypeError` is unreachable here because operands are typed). -/
def check_currency (a b : AdvancedMoney) : Except PyError Unit :=
  if a.currency ≠ b.currency then .error .incompatibleCurrency else .ok ()

/-- `AdvancedMoney.__add__`. -/
def add (a b : AdvancedMoney) : Except PyError AdvancedMoney :=
  match check_currency a b with
  | .error e => .error e
  | .ok _ => .ok (ofRat (a.amount + b.amount) a.currency)

/-- `AdvancedMoney.__sub__`. -/
def sub (a b : AdvancedMoney) : Except PyError AdvancedMoney :=
  match check_currency a b with
  | .error e => .error e
  | .ok _ => .ok (ofRat (a.amount - b.amount) a.currency)

/-- `AdvancedMoney.__mul__` with a numeric scalar (the `NotImplemented`
branch for non-numeric operands is unreachable: the scalar is typed `ℚ`;
`float` scalars enter through their exact binary value). -/
def mul (a : AdvancedMoney) (k : ℚ) : AdvancedMoney :=
  ofRat (a.amount * k) a.currency

/-- `AdvancedMoney.__truediv__` with a numeric scalar. -/
def div (a : AdvancedMoney) (k : ℚ) : Except PyError AdvancedMoney :=
  if k = 0 then .error .zeroDivision
  else .ok (ofRat (a.amount / k) a.currency)

/-- `AdvancedMoney.__gt__`. -/
def gt (a b : AdvancedMoney) : Except PyError Bool :=
  match check_currency a b with
  | .error e => .error e
  | .ok _ => .ok (decide (b.amount < a.amount))

end AdvancedMoney

/-! ## Quantization lemmas -/

theorem roundHalfUp_intCast (n : ℤ) : roundHalfUp (n : ℚ) = n := by
  unfold roundHalfUp
  rcases le_or_lt 0 (n : ℚ) with h | h
  · rw [if_pos h]
    have h2 : ⌊(1/2 : ℚ)⌋ = 0 := by norm_num
    rw [Int.floor_int_add, h2, add_zero]
  · rw [if_neg (not_le.mpr h)]
    have h1 : -(n : ℚ) + 1/2 = ((-n : ℤ) : ℚ) + 1/2 := by push_cast; ring
    have h2 : ⌊(1/2 : ℚ)⌋ = 0 := by norm_num
    rw [h1, Int.floor_int_add, h2, add_zero, neg_neg]

theorem quant2_eq {q : ℚ} {n : ℤ} (h : q * 100 = (n : ℚ)) : quant2 q = n := by
  rw [quant2, h, roundHalfUp_intCast]

theorem quant2_cents (n : ℤ) : quant2 ((n : ℚ) / 100) = n :=
  quant2_eq (div_mul_cancel₀ _ (by norm_num))

example : AdvancedMoney.ofRat (1005/1000) "usd" =
    { cents := 101, currency := "USD" } := by
  have h : quant2 (1005/1000) = 101 := by
    unfold quant2 roundHalfUp
    norm_num
  simp [AdvancedMoney.ofRat, h]
  decide

example : (AdvancedMoney.mul { cents := 15000, currency := "USD" } 10).cents
    = 150000 := by
  simp [AdvancedMoney.mul, AdvancedMoney.ofRat, AdvancedMoney.amount]
  exact quant2_eq (by norm_num)

example : AdvancedMoney.add { cents := 100, currency := "USD" }
    { cents := 200, currency := "EUR" } = .error .incompatibleCurrency := by
  simp [AdvancedMoney.add, AdvancedMoney.check_currency]

/-! ## Python dicts as insertion-ordered association lists -/

/-- `d[k]` as an `Option` (`d.get(k)`). -/
def dictGet {α : Type} (d : List (String × α)) (k : String) : Option α :=
  match d with
  | [] => none
  | (k2, v) :: rest => if k2 = k then some v else dictGet rest k

/-- `d[k] = v`: replace in place if the key is present, else append
(Python dicts preserve insertion order). -/
def dictSet {α : Type} (d : List (String × α)) (k : String) (v : α) :
    List (String × α) :=
  match d with
  | [] => [(k, v)]
  | (k2, v2) :: rest =>
      if k2 = k then (k2, v) :: rest else (k2, v2) :: dictSet rest k v

/-- `del d[k]`. -/
def dictDel {α : Type} (d : List (String × α)) (k : String) :
    List (String × α) :=
  match d with
  | [] => []
  | (k2, v2) :: rest => if k2 = k then rest else (k2, v2) :: dictDel rest k

/-! ## Balances -/

/-- A transaction-record dict.  `balance_after_cents` flattens the cyclic
reference to the new snapshot down to its amount; the wall-clock `timestamp`
is dropped.  `gain_loss` is present only on sell transactions. -/
structure TransactionRecord where
  type : String
  amount : AdvancedMoney
  description : String
  balance_after_cents : ℤ
  gain_loss : Option AdvancedMoney
  deriving DecidableEq

/-- The concrete Python class of a balance object: `AccountBalance` itself,
or the subclass `InvestmentBalance`. -/
inductive BKind where
  | standard
  | investment
  deriving DecidableEq

/-- A balance snapshot.  `AccountBalance` and `InvestmentBalance` are
flattened into one structure distinguished by `kind` (the spec's own design
note suggests exactly this tagged-variant representation); for
`kind = .standard` the `holdings` and `cost_basis` fields are always `[]`
(base `AccountBalance` objects carry no such attributes). -/
structure AccountBalance where
  cents : ℤ
  currency : String
  account_type : String
  kind : BKind
  transactions : List TransactionRecord
  holdings : List (String × ℤ)
  cost_basis : List (String × AdvancedMoney)
  deriving DecidableEq

namespace AccountBalance

/-- A balance viewed as the `AdvancedMoney` it inherits from. -/
def toMoney (b : AccountBalance) : AdvancedMoney :=
  { cents := b.cents, currency := b.currency }

/-- The `amount` attribute of a balance. -/
def amount (b : AccountBalance) : ℚ := (b.cents : ℚ) / 100

end AccountBalance

/-- `AccountBalance.__init__(amount, currency='USD', account_type='checking')`:
fresh empty transaction log, no investment state. -/
def mkAccountBalance (q : ℚ) (currency account_type : String) :
    AccountBalance :=
  { cents := quant2 q, currency := pyUpper currency,
    account_type := account_type, kind := .standard,
    transactions := [], holdings := [], cost_basis := [] }

/-- `InvestmentBalance.__init__(amount, currency='USD')`: calls
`super().__init__(amount, currency, 'investment')` and adds empty `holdings`
and `cost_basis` dicts. -/
def mkInvestmentBalance (q : ℚ) (currency : String) : AccountBalance :=
  { cents := quant2 q, currency := pyUpper currency,
    account_type := "investment", kind := .investment,
    transactions := [], holdings := [], cost_basis := [] }

namespace AccountBalance

/-- The `self.__class__(new_amount, self.currency, self.account_type)` call
of `deposit`/`withdraw`.  For a base `AccountBalance` this runs
`AccountBalance.__init__`.  For an `InvestmentBalance`, `self.__class__` is
`InvestmentBalance`, whose `__init__` accepts only `(amount, currency)`:
the three-argument call raises
`TypeError: __init__() takes from 2 to 3 positional arguments but 4 were
given`. -/
def self_class_new (b : AccountBalance) (q : ℚ) :
    Except PyError AccountBalance :=
  match b.kind with
  | .standard => .ok (mkAccountBalance q b.currency b.account_type)
  | .investment => .error .typeError

/-- `_copy_state_to`, resolved on the class of `b` (the old snapshot):
`AccountBalance._copy_state_to` copies the transaction log (and the created
date, which we drop); `InvestmentBalance._copy_state_to` additionally copies
`holdings` and `cost_basis` when the new instance is an `InvestmentBalance`. -/
def copy_state_to (b newInstance : AccountBalance) : AccountBalance :=
  match b.kind with
  | .standard => { newInstance with transactions := b.transactions }
  | .investment =>
      match newInstance.kind with
      | .investment =>
          { newInstance with
            transactions := b.transactions
            holdings := b.holdings
            cost_basis := b.cost_basis }
      | .standard => { newInstance with transactions := b.transactions }

/-- `AccountBalance.deposit(amount, description="Deposit")`. -/
def deposit (b : AccountBalance) (m : AdvancedMoney) (description : String) :
    Except PyError AccountBalance :=
  if m.currency ≠ b.currency then .error .incompatibleCurrency
  else
    match b.self_class_new (b.amount + m.amount) with
    | .error e => .error e
    | .ok fresh =>
        let nb := b.copy_state_to fresh
        .ok { nb with transactions := nb.transactions ++
          [{ type := "deposit", amount := m, description := description,
             balance_after_cents := nb.cents, gain_loss := none }] }

/-- `AccountBalance.withdraw(amount, description="Withdrawal")`. -/
def withdraw (b : AccountBalance) (m : AdvancedMoney) (description : String) :
    Except PyError AccountBalance :=
  if m.currency ≠ b.currency then .error .incompatibleCurrency
  else
    match AdvancedMoney.gt m b.toMoney with
    | .error e => .error e
    | .ok isOver =>
        if isOver then .error .insufficientFunds
        else
          match b.self_class_new (b.amount - m.amount) with
          | .error e => .error e
          | .ok fresh =>
              let nb := b.copy_state_to fresh
              .ok { nb with transactions := nb.transactions ++
                [{ type := "withdrawal", amount := m,
                   description := description,
                   balance_after_cents := nb.cents, gain_loss := none }] }

/-- `AccountBalance.transfer_to` (its `description` parameter is unused in
the source as well). -/
def transfer_to (b target : AccountBalance) (m : AdvancedMoney)
    (_description : String) :
    Except PyError (AccountBalance × AccountBalance) :=
  if m.currency ≠ b.currency ∨ m.currency ≠ target.currency then
    .error .incompatibleCurrency
  else
    match b.withdraw m ("Transfer to " ++ target.account_type) with
    | .error e => .error e
    | .ok newSource =>
        match target.deposit m ("Transfer from " ++ b.account_type) with
        | .error e => .error e
        | .ok newTarget => .ok (newSource, newTarget)

/-- `AccountBalance.get_transaction_history(limit=10)`, i.e.
`self.transactions[-limit:]`.  Python note: for `limit = 0` the slice is
`[-0:] = [0:]`, the whole list. -/
def get_transaction_history (b : AccountBalance) (limit : ℕ) :
    List TransactionRecord :=
  if limit = 0 then b.transactions
  else b.transactions.drop (b.transactions.length - limit)

end AccountBalance

namespace InvestmentBalance

/-- `InvestmentBalance.buy_stock(symbol, quantity, price_per_share)`. -/
def buy_stock (b : AccountBalance) (symbol : String) (quantity : ℤ)
    (price_per_share : AdvancedMoney) : Except PyError AccountBalance :=
  let total_cost := price_per_share.mul (quantity : ℚ)
  match AdvancedMoney.gt total_cost b.toMoney with
  | .error e => .error e
  | .ok over =>
    if over then .error .insufficientFunds
    else
      match b.withdraw total_cost
          ("Buy " ++ toString quantity ++ " shares of " ++ symbol) with
      | .error e => .error e
      | .ok nb =>
          match dictGet nb.holdings symbol with
          | some old_quantity =>
              match dictGet nb.cost_basis symbol with
              | none => .error .keyError
              | some old_cost_basis =>
                  let total_shares := old_quantity + quantity
                  match AdvancedMoney.add
                      (old_cost_basis.mul (old_quantity : ℚ)) total_cost with
                  | .error e => .error e
                  | .ok total_cost_basis =>
                      match total_cost_basis.div (total_shares : ℚ) with
                      | .error e => .error e
                      | .ok new_cost_basis =>
                          .ok { nb with
                            holdings :=
                              dictSet nb.holdings symbol total_shares,
                            cost_basis :=
                              dictSet nb.cost_basis symbol new_cost_basis }
          | none =>
              .ok { nb with
                holdings := dictSet nb.holdings symbol quantity,
                cost_basis := dictSet nb.cost_basis symbol price_per_share }

/-- `new_balance.transactions[-1]['gain_loss'] = g` (an empty log would be a
Python `IndexError`; unreachable after a successful deposit). -/
def setLastGainLoss (ts : List TransactionRecord) (g : AdvancedMoney) :
    Except PyError (List TransactionRecord) :=
  match ts.getLast? with
  | none => .error .indexError
  | some r => .ok (ts.dropLast ++ [{ r with gain_loss := some g }])

/-- `InvestmentBalance.sell_stock(symbol, quantity, price_per_share)`. -/
def sell_stock (b : AccountBalance) (symbol : String) (quantity : ℤ)
    (price_per_share : AdvancedMoney) : Except PyError AccountBalance :=
  if (dictGet b.holdings symbol).isNone ∨
      ((dictGet b.holdings symbol).getD 0) < quantity then
    .error .insufficientShares
  else
    let total_proceeds := price_per_share.mul (quantity : ℚ)
    match b.deposit total_proceeds
        ("Sell " ++ toString quantity ++ " shares of " ++ symbol) with
    | .error e => .error e
    | .ok nb =>
        match dictGet nb.holdings symbol with
        | none => .error .keyError
        | some held =>
            let held2 := held - quantity
            let nb2 :=
              if held2 = 0 then
                { nb with
                  holdings := dictDel nb.holdings symbol
                  cost_basis := dictDel nb.cost_basis symbol }
              else { nb with holdings := dictSet nb.holdings symbol held2 }
            match dictGet b.cost_basis symbol with
            | none => .error .keyError
            | some basis =>
                let original_cost := basis.mul (quantity : ℚ)
                match AdvancedMoney.sub total_proceeds original_cost with
                | .error e => .error e
                | .ok gl =>
                    match setLastGainLoss nb2.transactions gl with
                    | .error e => .error e
                    | .ok ts2 => .ok { nb2 with transactions := ts2 }

end InvestmentBalance

/-! ## Structural lemmas about the operations -/

theorem amount_lt_amount (x y : AdvancedMoney) :
    x.amount < y.amount ↔ x.cents < y.cents := by
  unfold AdvancedMoney.amount
  rw [div_lt_div_iff_of_pos_right (by norm_num : (0:ℚ) < 100)]
  exact_mod_cast Iff.rfl

theorem quant2_amount_add (x y : ℤ) :
    quant2 ((x : ℚ) / 100 + (y : ℚ) / 100) = x + y :=
  quant2_eq (by push_cast; ring)

theorem quant2_amount_sub (x y : ℤ) :
    quant2 ((x : ℚ) / 100 - (y : ℚ) / 100) = x - y :=
  quant2_eq (by push_cast; ring)

theorem gt_same_currency (a b : AdvancedMoney) (hc : a.currency = b.currency) :
    AdvancedMoney.gt a b = .ok (decide (b.cents < a.cents)) := by
  simp only [AdvancedMoney.gt, AdvancedMoney.check_currency, hc, ne_eq,
    not_true_eq_false, if_false, Except.ok.injEq]
  exact decide_eq_decide.mpr (amount_lt_amount b a)

/-- `deposit` on a base `AccountBalance` with matching currency: the full
shape of the new snapshot. -/
theorem deposit_standard (b : AccountBalance) (m : AdvancedMoney) (d : String)
    (hk : b.kind = .standard) (hc : m.currency = b.currency) :
    b.deposit m d = .ok
      { cents := b.cents + m.cents
        currency := pyUpper b.currency
        account_type := b.account_type
        kind := .standard
        transactions := b.transactions ++
          [{ type := "deposit", amount := m, description := d,
             balance_after_cents := b.cents + m.cents, gain_loss := none }]
        holdings := []
        cost_basis := [] } := by
  have hq : quant2 (b.amount + m.amount) = b.cents + m.cents := by
    simpa [AccountBalance.amount, AdvancedMoney.amount] using
      quant2_amount_add b.cents m.cents
  simp [AccountBalance.deposit, hc, AccountBalance.self_class_new, hk,
    mkAccountBalance, AccountBalance.copy_state_to, hq]

/-- `deposit` on an `InvestmentBalance` always raises `TypeError` (after the
currency check): `self.__class__(amount, currency, account_type)` passes
three arguments to `InvestmentBalance.__init__(amount, currency)`. -/
theorem deposit_investment (b : AccountBalance) (m : AdvancedMoney)
    (d : String) (hk : b.kind = .investment) (hc : m.currency = b.currency) :
    b.deposit m d = .error .typeError := by
  simp [AccountBalance.deposit, hc, AccountBalance.self_class_new, hk]

/-- `withdraw` raises `InsufficientFunds` exactly on `amount > self`, for
both balance classes (the check precedes the constructor call). -/
theorem withdraw_insufficient (b : AccountBalance) (m : AdvancedMoney)
    (d : String) (hc : m.currency = b.currency) (h : b.cents < m.cents) :
    b.withdraw m d = .error .insufficientFunds := by
  have hg : AdvancedMoney.gt m { cents := b.cents, currency := b.currency } =
      .ok (decide (b.cents < m.cents)) := by
    simpa [AccountBalance.toMoney] using
      gt_same_currency m b.toMoney (by simpa [AccountBalance.toMoney])
  simp [AccountBalance.withdraw, hc, AccountBalance.toMoney, hg, h]

/-- `withdraw` on a base `AccountBalance` with matching currency and enough
funds: the full shape of the new snapshot. -/
theorem withdraw_standard (b : AccountBalance) (m : AdvancedMoney) (d : String)
    (hk : b.kind = .standard) (hc : m.currency = b.currency)
    (h : m.cents ≤ b.cents) :
    b.withdraw m d = .ok
      { cents := b.cents - m.cents
        currency := pyUpper b.currency
        account_type := b.account_type
        kind := .standard
        transactions := b.transactions ++
          [{ type := "withdrawal", amount := m, description := d,
             balance_after_cents := b.cents - m.cents, gain_loss := none }]
        holdings := []
        cost_basis := [] } := by
  have hg : AdvancedMoney.gt m { cents := b.cents, currency := b.currency } =
      .ok (decide (b.cents < m.cents)) := by
    simpa [AccountBalance.toMoney] using
      gt_same_currency m b.toMoney (by simpa [AccountBalance.toMoney])
  have hq : quant2 (b.amount - m.amount) = b.cents - m.cents := by
    simpa [AccountBalance.amount, AdvancedMoney.amount] using
      quant2_amount_sub b.cents m.cents
  simp [AccountBalance.withdraw, hc, AccountBalance.toMoney, hg,
    not_lt.mpr h, AccountBalance.self_class_new, hk, mkAccountBalance,
    AccountBalance.copy_state_to, hq]

/-- `withdraw` on an `InvestmentBalance` with matching currency and enough
funds raises `TypeError` from the constructor call. -/
theorem withdraw_investment (b : AccountBalance) (m : AdvancedMoney)
    (d : String) (hk : b.kind = .investment) (hc : m.currency = b.currency)
    (h : m.cents ≤ b.cents) :
    b.withdraw m d = .error .typeError := by
  have hg : AdvancedMoney.gt m { cents := b.cents, currency := b.currency } =
      .ok (decide (b.cents < m.cents)) := by
    simpa [AccountBalance.toMoney] using
      gt_same_currency m b.toMoney (by simpa [AccountBalance.toMoney])
  simp [AccountBalance.withdraw, hc, AccountBalance.toMoney, hg,
    not_lt.mpr h, AccountBalance.self_class_new, hk]

/-! ## Rounding characterization (half-up, ties away from zero) -/

theorem roundHalfUp_close (r : ℚ) : |r - (roundHalfUp r : ℚ)| ≤ 1/2 := by
  unfold roundHalfUp
  rcases le_or_lt 0 r with hr | hr
  · rw [if_pos hr]
    have hc1 : ((⌊r + 1/2⌋ : ℤ) : ℚ) ≤ r + 1/2 := Int.floor_le _
    have hc2 : r + 1/2 < (⌊r + 1/2⌋ : ℤ) + 1 := Int.lt_floor_add_one _
    rw [abs_le]
    constructor <;> [linarith; linarith]
  · rw [if_neg (not_le.mpr hr)]
    have hc1 : ((⌊-r + 1/2⌋ : ℤ) : ℚ) ≤ -r + 1/2 := Int.floor_le _
    have hc2 : -r + 1/2 < (⌊-r + 1/2⌋ : ℤ) + 1 := Int.lt_floor_add_one _
    rw [abs_le]
    push_cast
    constructor <;> [linarith; linarith]

theorem roundHalfUp_tie_away (r : ℚ)
    (h : |r - (roundHalfUp r : ℚ)| = 1/2) :
    |(roundHalfUp r : ℚ)| = |r| + 1/2 := by
  unfold roundHalfUp at h ⊢
  rcases le_or_lt 0 r with hr | hr
  · rw [if_pos hr] at h ⊢
    have hc2 : r + 1/2 < (⌊r + 1/2⌋ : ℤ) + 1 := Int.lt_floor_add_one _
    rcases (abs_eq (by norm_num : (0:ℚ) ≤ 1/2)).mp h with h2 | h2
    · linarith
    · have hcr : ((⌊r + 1/2⌋ : ℤ) : ℚ) = r + 1/2 := by linarith
      rw [hcr, abs_of_nonneg hr, abs_of_nonneg (by linarith)]
  · rw [if_neg (not_le.mpr hr)] at h ⊢
    have hc1 : ((⌊-r + 1/2⌋ : ℤ) : ℚ) ≤ -r + 1/2 := Int.floor_le _
    have hc2 : -r + 1/2 < (⌊-r + 1/2⌋ : ℤ) + 1 := Int.lt_floor_add_one _
    push_cast at h ⊢
    rcases (abs_eq (by norm_num : (0:ℚ) ≤ 1/2)).mp h with h2 | h2
    · have hcr : ((⌊-r + 1/2⌋ : ℤ) : ℚ) = -r + 1/2 := by linarith
      rw [hcr, abs_of_neg hr, abs_of_nonpos (by linarith)]
      ring
    · linarith

/-! ## Concrete fixtures used in witnesses and counterexamples -/

/-- A US-dollar money value given by its cents. -/
def usd (c : ℤ) : AdvancedMoney := { cents := c, currency := "USD" }

/-- A base (checking) `AccountBalance` given by cents and log. -/
def stdBal (c : ℤ) (ts : List TransactionRecord) : AccountBalance :=
  { cents := c, currency := "USD", account_type := "checking",
    kind := .standard, transactions := ts, holdings := [], cost_basis := [] }

/-- An `InvestmentBalance` state given by cents, holdings and cost basis. -/
def invBal (c : ℤ) (hs : List (String × ℤ))
    (cb : List (String × AdvancedMoney)) : AccountBalance :=
  { cents := c, currency := "USD", account_type := "investment",
    kind := .investment, transactions := [], holdings := hs,
    cost_basis := cb }

theorem pyUpper_usd : pyUpper "USD" = "USD" := by decide

/-! ## Claims -/

/-- C1: the claim says every factory operation returns an instance of the
same concrete kind as `self`, and in particular that
`InvestmentBalance.deposit` and `InvestmentBalance.withdraw` succeed and
yield an `InvestmentBalance` with the subclass state copied over.  The code
violates this: `deposit`/`withdraw` call
`self.__class__(amount, currency, account_type)`, but
`InvestmentBalance.__init__` accepts only `(amount, currency)`, so both
operations on `InvestmentBalance('10000.00','USD')` raise `TypeError`
instead of returning anything. -/
theorem C1_investment_factory_typeerror :
    (mkInvestmentBalance 10000 "USD").deposit
      (AdvancedMoney.ofRat 500 "USD") "Deposit" = .error .typeError
    ∧ (mkInvestmentBalance 10000 "USD").withdraw
      (AdvancedMoney.ofRat 500 "USD") "Withdrawal" = .error .typeError := by
  have h500 : quant2 (500 : ℚ) = 50000 := quant2_eq (by norm_num)
  have h10000 : quant2 (10000 : ℚ) = 1000000 := quant2_eq (by norm_num)
  constructor
  · exact deposit_investment _ _ _ rfl rfl
  · exact withdraw_investment _ _ _ rfl rfl
      (by simp [mkInvestmentBalance, AdvancedMoney.ofRat, h500, h10000])

/-- C5: for Money values of different currencies, `a+b`, `a-b` and `a>b`
all raise `IncompatibleCurrencyError`, and none of them raises it when the
currencies agree (stated as an equivalence for each operator). -/
theorem C5_currency_safety (a b : AdvancedMoney) :
    (a.add b = .error .incompatibleCurrency ↔ a.currency ≠ b.currency)
    ∧ (a.sub b = .error .incompatibleCurrency ↔ a.currency ≠ b.currency)
    ∧ (a.gt b = .error .incompatibleCurrency ↔ a.currency ≠ b.currency) := by
  by_cases h : a.currency = b.currency <;>
    simp [AdvancedMoney.add, AdvancedMoney.sub, AdvancedMoney.gt,
      AdvancedMoney.check_currency, h]

/-- Witness for C5 at a USD/EUR pair. -/
theorem C5_currency_safety_witness :
    ((usd 100).add { cents := 100, currency := "EUR" }
        = .error .incompatibleCurrency ↔
      (usd 100).currency ≠ ({ cents := 100, currency := "EUR" } :
        AdvancedMoney).currency)
    ∧ ((usd 100).sub { cents := 100, currency := "EUR" }
        = .error .incompatibleCurrency ↔
      (usd 100).currency ≠ ({ cents := 100, currency := "EUR" } :
        AdvancedMoney).currency)
    ∧ ((usd 100).gt { cents := 100, currency := "EUR" }
        = .error .incompatibleCurrency ↔
      (usd 100).currency ≠ ({ cents := 100, currency := "EUR" } :
        AdvancedMoney).currency) :=
  C5_currency_safety (usd 100) { cents := 100, currency := "EUR" }

/-- C6: every constructible Money value stores an amount with exactly two
fractional digits (`100 * amount` is the integer `cents`; every arithmetic
result is built by the same quantizing constructor `AdvancedMoney.ofRat`),
the stored amount is the half-up rounding of the requested amount (within
half a cent, ties resolved away from zero), and constructing from the exact
decimal `1.005` yields `1.01`. -/
theorem C6_quantization (q : ℚ) (cur : String) :
    100 * (AdvancedMoney.ofRat q cur).amount
      = ((AdvancedMoney.ofRat q cur).cents : ℚ)
    ∧ |q - (AdvancedMoney.ofRat q cur).amount| ≤ 1/200
    ∧ (|q - (AdvancedMoney.ofRat q cur).amount| = 1/200 →
        |(AdvancedMoney.ofRat q cur).amount| = |q| + 1/200)
    ∧ (AdvancedMoney.ofRat (1005/1000) "USD").amount = 101/100 := by
  have hclose := roundHalfUp_close (q * 100)
  have h100 : |(100:ℚ)| = 100 := abs_of_pos (by norm_num)
  have e1 : (AdvancedMoney.ofRat q cur).amount
      = ((roundHalfUp (q * 100) : ℤ) : ℚ) / 100 := rfl
  have habs : |q - (AdvancedMoney.ofRat q cur).amount|
      = |q * 100 - ((roundHalfUp (q * 100) : ℤ) : ℚ)| / 100 := by
    rw [e1, show q - ((roundHalfUp (q * 100) : ℤ) : ℚ) / 100
        = (q * 100 - ((roundHalfUp (q * 100) : ℤ) : ℚ)) / 100 by ring,
      abs_div, h100]
  refine ⟨?_, ?_, ?_, ?_⟩
  · show 100 * (((quant2 q : ℤ) : ℚ) / 100) = ((quant2 q : ℤ) : ℚ)
    ring
  · rw [habs]
    linarith
  · intro h
    rw [habs] at h
    have h2 : |q * 100 - ((roundHalfUp (q * 100) : ℤ) : ℚ)| = 1/2 := by
      linarith
    have htie := roundHalfUp_tie_away (q * 100) h2
    rw [abs_mul, h100] at htie
    rw [e1, abs_div, h100]
    linarith
  · show ((quant2 (1005/1000) : ℤ) : ℚ) / 100 = 101/100
    rw [show quant2 (1005/1000) = 101 by unfold quant2 roundHalfUp; norm_num]
    norm_num

/-- Witness for C6 at the spec's own example input `1.005`. -/
theorem C6_quantization_witness :
    100 * (AdvancedMoney.ofRat (1005/1000) "usd").amount
      = ((AdvancedMoney.ofRat (1005/1000) "usd").cents : ℚ)
    ∧ |(1005/1000 : ℚ) - (AdvancedMoney.ofRat (1005/1000) "usd").amount| ≤ 1/200
    ∧ (|(1005/1000 : ℚ) - (AdvancedMoney.ofRat (1005/1000) "usd").amount| = 1/200 →
        |(AdvancedMoney.ofRat (1005/1000) "usd").amount| = |(1005/1000 : ℚ)| + 1/200)
    ∧ (AdvancedMoney.ofRat (1005/1000) "USD").amount = 101/100 :=
  C6_quantization (1005/1000) "usd"

/-- C4 counterexample: the claim quantifies over every Balance and asserts
that withdrawing exactly the full balance succeeds; on
`InvestmentBalance('1.00','USD')` withdrawing the full `1.00` raises
`TypeError` (constructor-arity bug) instead of succeeding. -/
theorem C4_counterexample :
    (mkInvestmentBalance 1 "USD").withdraw
      (AdvancedMoney.ofRat 1 "USD") "Withdrawal" = .error .typeError :=
  withdraw_investment _ _ _ rfl rfl (le_refl _)

/-- C4 amended: for every balance and same-currency amount, `withdraw`
fails with `InsufficientFunds` exactly when the amount exceeds the balance;
and for every non-investment balance, whenever the amount does not exceed
the balance (in particular when it equals it) the withdrawal succeeds.
On failure the original snapshot is untouched: the operations are pure
value transformations (`_copy_state_to` copies the log), so `b` is never
modified. -/
theorem C4_withdraw_insufficient_iff (b : AccountBalance) (m : AdvancedMoney)
    (d : String) (hc : m.currency = b.currency) :
    (b.withdraw m d = .error .insufficientFunds ↔ b.cents < m.cents)
    ∧ (b.kind = .standard → m.cents ≤ b.cents →
        ∃ b2, b.withdraw m d = .ok b2) := by
  constructor
  · constructor
    · intro h
      by_contra hlt
      push_neg at hlt
      cases hk : b.kind with
      | standard =>
          rw [withdraw_standard b m d hk hc hlt] at h
          exact absurd h (by simp)
      | investment =>
          rw [withdraw_investment b m d hk hc hlt] at h
          simp at h
    · intro h
      exact withdraw_insufficient b m d hc h
  · intro hk h
    exact ⟨_, withdraw_standard b m d hk hc h⟩

/-- Witness for C4 at a concrete checking balance of 100.00 USD and a
withdrawal of 50.00 USD. -/
theorem C4_withdraw_insufficient_iff_witness :
    ((stdBal 10000 []).withdraw (usd 5000) "W" = .error .insufficientFunds ↔
      (stdBal 10000 []).cents < (usd 5000).cents)
    ∧ ((stdBal 10000 []).kind = .standard →
        (usd 5000).cents ≤ (stdBal 10000 []).cents →
        ∃ b2, (stdBal 10000 []).withdraw (usd 5000) "W" = .ok b2) :=
  C4_withdraw_insufficient_iff (stdBal 10000 []) (usd 5000) "W" rfl

/-- C7 counterexample: the claim quantifies over every Balance; on an
`InvestmentBalance` the deposit raises `TypeError` instead of producing any
new snapshot. -/
theorem C7_counterexample :
    (mkInvestmentBalance 200 "USD").deposit
      (AdvancedMoney.ofRat 5 "USD") "D" = .error .typeError :=
  deposit_investment _ _ _ rfl rfl

/-- C7 amended: for every non-investment balance `b1` and same-currency
money `m`, `b2 = b1.deposit(m)` succeeds, `b2`'s log is exactly `b1`'s log
(which is untouched — the operation is a pure value transformation over the
copied list) plus one final `deposit` record whose `balance_after` refers to
the new snapshot (flattened to its amount in cents), so the new log is one
entry longer. -/
theorem C7_deposit_immutable (b : AccountBalance) (m : AdvancedMoney)
    (d : String) (hk : b.kind = .standard) (hc : m.currency = b.currency) :
    ∃ b2, b.deposit m d = .ok b2
      ∧ b2.transactions = b.transactions ++
          [{ type := "deposit", amount := m, description := d,
             balance_after_cents := b2.cents, gain_loss := none }]
      ∧ b2.transactions.length = b.transactions.length + 1
      ∧ b2.cents = b.cents + m.cents := by
  refine ⟨_, deposit_standard b m d hk hc, rfl, by simp, rfl⟩

/-- Witness for C7 at a concrete checking balance of 1000.00 USD and a
deposit of 500.00 USD. -/
theorem C7_deposit_immutable_witness :
    ∃ b2, (stdBal 100000 []).deposit (usd 50000) "Payroll deposit" = .ok b2
      ∧ b2.transactions = (stdBal 100000 []).transactions ++
          [{ type := "deposit", amount := usd 50000,
             description := "Payroll deposit",
             balance_after_cents := b2.cents, gain_loss := none }]
      ∧ b2.transactions.length = (stdBal 100000 []).transactions.length + 1
      ∧ b2.cents = (stdBal 100000 []).cents + (usd 50000).cents :=
  C7_deposit_immutable (stdBal 100000 []) (usd 50000) "Payroll deposit"
    rfl rfl

/-- C9 counterexample: the claim covers every non-negative limit, but for
`limit = 0` the slice `transactions[-0:]` is the whole list, not the last
zero entries (`[]`). -/
theorem C9_counterexample :
    (stdBal 0
      [{ type := "deposit", amount := usd 100, description := "D",
         balance_after_cents := 100, gain_loss := none }]
      ).get_transaction_history 0 ≠ [] := by
  simp [AccountBalance.get_transaction_history, stdBal]

/-- C9 amended: for every *positive* limit, `get_transaction_history`
returns exactly the last `limit` entries (all of them if the log is
shorter) in chronological order: the result is a suffix of the log of
length `min limit length` (and the log itself, a pure value, is neither
mutated nor reordered). -/
theorem C9_history_suffix (b : AccountBalance) (limit : ℕ) (h : 0 < limit) :
    (b.get_transaction_history limit).length
      = min limit b.transactions.length
    ∧ List.IsSuffix (b.get_transaction_history limit) b.transactions := by
  unfold AccountBalance.get_transaction_history
  rw [if_neg (Nat.pos_iff_ne_zero.mp h)]
  refine ⟨?_, List.drop_suffix _ _⟩
  rw [List.length_drop]
  omega

/-- Witness for C9: a two-entry log truncated to its last entry. -/
theorem C9_history_suffix_witness :
    ((stdBal 0
      [{ type := "deposit", amount := usd 100, description := "D1",
         balance_after_cents := 100, gain_loss := none },
       { type := "withdrawal", amount := usd 40, description := "D2",
         balance_after_cents := 60, gain_loss := none }]
      ).get_transaction_history 1).length
      = min 1 (stdBal 0
      [{ type := "deposit", amount := usd 100, description := "D1",
         balance_after_cents := 100, gain_loss := none },
       { type := "withdrawal", amount := usd 40, description := "D2",
         balance_after_cents := 60, gain_loss := none }]
      ).transactions.length
    ∧ List.IsSuffix ((stdBal 0
      [{ type := "deposit", amount := usd 100, description := "D1",
         balance_after_cents := 100, gain_loss := none },
       { type := "withdrawal", amount := usd 40, description := "D2",
         balance_after_cents := 60, gain_loss := none }]
      ).get_transaction_history 1) (stdBal 0
      [{ type := "deposit", amount := usd 100, description := "D1",
         balance_after_cents := 100, gain_loss := none },
       { type := "withdrawal", amount := usd 40, description := "D2",
         balance_after_cents := 60, gain_loss := none }]
      ).transactions :=
  C9_history_suffix _ 1 (by decide)

/-- C10 counterexample: two failures of the claim as stated.  On an
`InvestmentBalance`, depositing a negative amount raises `TypeError`
rather than succeeding; and on a checking balance of `-100.00` the
insufficient-funds check *does* fire for the negative withdrawal `-5.00`
(since `-5.00 > -100.00`), contradicting "the insufficient-funds check
never fires for a negative amount". -/
theorem C10_counterexample :
    (mkInvestmentBalance 400 "USD").deposit
      (AdvancedMoney.ofRat (-5) "USD") "Deposit" = .error .typeError
    ∧ (stdBal (-10000) []).withdraw (usd (-500)) "Withdrawal"
      = .error .insufficientFunds := by
  constructor
  · exact deposit_investment _ _ _ rfl rfl
  · exact withdraw_insufficient _ _ _ rfl (by norm_num [stdBal, usd])

/-- C10 amended: deposits and withdrawals perform no sign check.  For every
non-investment balance and same-currency negative amount, the deposit
succeeds and adds the (negative) amount; the withdrawal succeeds with the
amount subtracted whenever the amount does not exceed the balance — which
is automatic for a non-negative balance, though the insufficient-funds
comparison still fires when the (negative) amount exceeds a more negative
balance. -/
theorem C10_no_sign_check (b : AccountBalance) (m : AdvancedMoney)
    (d : String) (hk : b.kind = .standard) (hc : m.currency = b.currency)
    (_hm : m.cents < 0) :
    (∃ b2, b.deposit m d = .ok b2 ∧ b2.cents = b.cents + m.cents)
    ∧ (m.cents ≤ b.cents →
        ∃ b2, b.withdraw m d = .ok b2 ∧ b2.cents = b.cents - m.cents) := by
  constructor
  · exact ⟨_, deposit_standard b m d hk hc, rfl⟩
  · intro h
    exact ⟨_, withdraw_standard b m d hk hc h, rfl⟩

/-- Witness for C10: balance 10.00 USD, negative amount -20.00 USD; the
deposit yields the negative balance -10.00 and the withdrawal yields
30.00. -/
theorem C10_no_sign_check_witness :
    ((∃ b2, (stdBal 1000 []).deposit (usd (-2000)) "D" = .ok b2
        ∧ b2.cents = (stdBal 1000 []).cents + (usd (-2000)).cents)
    ∧ ((usd (-2000)).cents ≤ (stdBal 1000 []).cents →
        ∃ b2, (stdBal 1000 []).withdraw (usd (-2000)) "D" = .ok b2
          ∧ b2.cents = (stdBal 1000 []).cents - (usd (-2000)).cents)) :=
  C10_no_sign_check (stdBal 1000 []) (usd (-2000)) "D" rfl rfl (by norm_num [usd])

/-- C2: the claim says `buy_stock` succeeds and recomputes the weighted
average cost basis.  Evaluating the code on an `InvestmentBalance` holding
10 AAPL at cost 150.00 with 10000.00 cash, buying 10 more at 170.00: the
internal `withdraw` raises `TypeError` (the `self.__class__` call passes
`account_type` to `InvestmentBalance.__init__`, which does not accept it),
so the holdings-update code — including the weighted-average branch — is
unreachable and no purchase can ever succeed. -/
theorem C2_buy_stock_typeerror :
    InvestmentBalance.buy_stock
      (invBal 1000000 [("AAPL", 10)] [("AAPL", usd 15000)])
      "AAPL" 10 (usd 17000) = .error .typeError := by
  have hmul : AdvancedMoney.mul (usd 17000) ((10 : ℤ) : ℚ) = usd 170000 := by
    simp [AdvancedMoney.mul, AdvancedMoney.ofRat, AdvancedMoney.amount, usd,
      pyUpper_usd]
    exact quant2_eq (by push_cast; norm_num)
  have hgt : AdvancedMoney.gt (usd 170000)
      (invBal 1000000 [("AAPL", 10)] [("AAPL", usd 15000)]).toMoney
      = .ok false := by
    rw [gt_same_currency (usd 170000)
      (invBal 1000000 [("AAPL", 10)] [("AAPL", usd 15000)]).toMoney rfl]
    norm_num [AccountBalance.toMoney, invBal, usd]
  have hwd : (invBal 1000000 [("AAPL", 10)] [("AAPL", usd 15000)]).withdraw
      (usd 170000) ("Buy " ++ toString (10 : ℤ) ++ " shares of " ++ "AAPL")
      = .error .typeError :=
    withdraw_investment _ _ _ rfl rfl (by norm_num [invBal, usd])
  simp only [InvestmentBalance.buy_stock, hmul, hgt, hwd, Bool.false_eq_true,
    if_false]

/-- C3: the claim says `sell_stock` succeeds and attaches
`gainLoss = proceeds - costBasis*quantity` to the new transaction record.
Evaluating the code on an `InvestmentBalance` holding 10 AAPL at cost
150.00: selling 5 at 160.00 raises `TypeError` from the internal `deposit`
(constructor-arity bug), so the gain/loss computation is unreachable and
no sale can ever succeed. -/
theorem C3_sell_stock_typeerror :
    InvestmentBalance.sell_stock
      (invBal 850000 [("AAPL", 10)] [("AAPL", usd 15000)])
      "AAPL" 5 (usd 16000) = .error .typeError := by
  have hget : dictGet
      (invBal 850000 [("AAPL", 10)] [("AAPL", usd 15000)]).holdings "AAPL"
      = some 10 := by
    simp [invBal, dictGet]
  have hmul : AdvancedMoney.mul (usd 16000) ((5 : ℤ) : ℚ) = usd 80000 := by
    simp [AdvancedMoney.mul, AdvancedMoney.ofRat, AdvancedMoney.amount, usd,
      pyUpper_usd]
    exact quant2_eq (by push_cast; norm_num)
  have hdep : (invBal 850000 [("AAPL", 10)] [("AAPL", usd 15000)]).deposit
      (usd 80000) ("Sell " ++ toString (5 : ℤ) ++ " shares of " ++ "AAPL")
      = .error .typeError :=
    deposit_investment _ _ _ rfl rfl
  simp only [InvestmentBalance.sell_stock, hget, hmul, hdep,
    Option.isNone_some, Option.getD_some]
  norm_num

/-- C8 counterexample: two failures of the round-trip claim as stated.
On an `InvestmentBalance` the deposit raises `TypeError`; and on a
checking balance of `-10.00` (reachable by depositing negative money, which
is unchecked), `deposit(50.00)` then `withdraw(50.00)` raises
`InsufficientFunds` because the intermediate balance `40.00` is below the
withdrawal. -/
theorem C8_counterexample :
    (mkInvestmentBalance 300 "USD").deposit (AdvancedMoney.ofRat 50 "USD")
      "Deposit" = .error .typeError
    ∧ Except.bind ((stdBal (-1000) []).deposit (usd 5000) "Deposit")
        (fun b1 => b1.withdraw (usd 5000) "Withdrawal")
      = .error .insufficientFunds := by
  constructor
  · exact deposit_investment _ _ _ rfl rfl
  · rw [deposit_standard (stdBal (-1000) []) (usd 5000) "Deposit" rfl rfl]
    simp only [Except.bind]
    apply withdraw_insufficient
    · simp [usd, stdBal, pyUpper_usd]
    · norm_num [stdBal, usd]

/-- C8 amended: for every non-investment balance with non-negative amount
and same-currency money (with an already-normalized currency code, as every
constructed balance has), `deposit(m)` then `withdraw(m)` succeeds and
returns a balance with the same amount, currency, account kind and class,
and a transaction log exactly two entries longer. -/
theorem C8_roundtrip (b : AccountBalance) (m : AdvancedMoney) (d1 d2 : String)
    (hk : b.kind = .standard) (hc : m.currency = b.currency)
    (hu : pyUpper b.currency = b.currency) (hb : 0 ≤ b.cents) :
    ∃ b1 b2, b.deposit m d1 = .ok b1 ∧ b1.withdraw m d2 = .ok b2
      ∧ b2.cents = b.cents ∧ b2.currency = b.currency
      ∧ b2.account_type = b.account_type ∧ b2.kind = b.kind
      ∧ b2.transactions.length = b.transactions.length + 2 := by
  refine ⟨_, _, deposit_standard b m d1 hk hc,
    withdraw_standard _ m d2 rfl ?_ ?_, ?_, ?_, ?_, ?_, ?_⟩
  · show m.currency = pyUpper b.currency
    rw [hu]
    exact hc
  · show m.cents ≤ b.cents + m.cents
    omega
  · show b.cents + m.cents - m.cents = b.cents
    omega
  · show pyUpper (pyUpper b.currency) = b.currency
    rw [hu, hu]
  · rfl
  · exact hk.symm
  · simp

/-- Witness for C8: checking balance 1500.00 USD, money 200.00 USD. -/
theorem C8_roundtrip_witness :
    ∃ b1 b2, (stdBal 150000 []).deposit (usd 20000) "Deposit" = .ok b1
      ∧ b1.withdraw (usd 20000) "Withdrawal" = .ok b2
      ∧ b2.cents = (stdBal 150000 []).cents
      ∧ b2.currency = (stdBal 150000 []).currency
      ∧ b2.account_type = (stdBal 150000 []).account_type
      ∧ b2.kind = (stdBal 150000 []).kind
      ∧ b2.transactions.length = (stdBal 150000 []).transactions.length + 2 :=
  C8_roundtrip (stdBal 150000 []) (usd 20000) "Deposit" "Withdrawal"
    rfl rfl pyUpper_usd (by norm_num [stdBal])

end Proj1
